import Mathlib

/-!
# Verification of the billing credit ledger and webhook reconciliation core

Shallow embedding of `backend/app/services/billing.py`,
`backend/app/repositories/billing.py` and
`backend/app/api/routes/webhooks/creem.py` (the PostgreSQL/async variant;
the SQLite variant is the same logic with `str` user ids and no UUID
parse).

Modelling conventions:
* Python `int` becomes `Int`; Python `float` amounts and model multipliers
  become `ℚ` (exact arithmetic standing in for IEEE floats).
* The four relational stores (credit_wallets, token_ledgers, subscriptions,
  payment_transactions) become lists inside one `BillingState`; queries and
  inserts of `repositories/billing.py` become pure functions on it.
  `subscriptions` is kept newest-first, so "latest by created_at" is the
  first list element matching the user.
* `uuid.UUID(raw)` (Python standard library, raises `ValueError` on bad
  input) is abstracted as a caller-supplied `parseUserId : String → Option UserId`.
* HMAC signature verification over raw bytes and JSON lexing are outside
  the modelled core: the route handler `creem_webhook` takes the boolean
  outcome of `creem.verify_signature` and the `Except`-valued outcome of
  `creem.parse_event` as inputs. A successful parse carries an arbitrary
  `Json` value — not only a well-shaped event — and `handler_body` runs
  the route handler's statements over it with Python's dynamic typing,
  raising where the source would raise. `process_creem_event` is the same
  dispatch restricted to well-shaped provider events.
-/

abbrev UserId := Nat

/-- One entry of `settings.BILLING_CREDIT_PACKS` (a list of dicts with keys
`credits` and `provider_product_id`). -/
structure CreditPack where
  credits : Int
  provider_product_id : Option String
deriving Repr, DecidableEq

/-- The configuration surface read from `app.core.config.settings` by the
embedded functions. -/
structure Settings where
  BILLING_MONTHLY_CREDITS : Int
  BILLING_TOKENS_PER_CREDIT : Int
  BILLING_MODEL_MULTIPLIERS : List (String × ℚ)
  BILLING_CREDIT_PACKS : List CreditPack
  CREEM_SUBSCRIPTION_PRODUCT_ID : String
deriving Repr, DecidableEq

/-- Row of the `credit_wallets` table (`app/db/models/billing.py`:
`CreditWallet`). -/
structure CreditWallet where
  user_id : UserId
  monthly_remaining : Int
  prepaid_balance : Int
deriving Repr, DecidableEq

/-- Row of the `token_ledgers` table (`TokenLedger`). -/
structure TokenLedger where
  user_id : UserId
  model_name : Option String
  prompt_tokens : Option Int
  completion_tokens : Option Int
  total_tokens : Int
  cost_credits : Int
  overage_credits : Int
  provider_request_id : Option String
  metadata_ : Option (List (String × String))
deriving Repr, DecidableEq

/-- Row of the `subscriptions` table (`Subscription`). Period bounds are
abstract timestamps. -/
structure Subscription where
  user_id : UserId
  provider : String
  provider_subscription_id : Option String
  status : String
  plan_name : Option String
  monthly_credits : Int
  current_period_start : Option Int
  current_period_end : Option Int
  metadata_ : Option (List (String × String))
deriving Repr, DecidableEq

/-- Row of the `payment_transactions` table (`PaymentTransaction`). -/
structure PaymentTransaction where
  user_id : UserId
  provider : String
  external_id : String
  kind : String
  status : String
  amount : Option ℚ
  currency : Option String
  credits_granted : Int
  metadata_ : Option (List (String × String))
deriving Repr, DecidableEq

/-- The persistent state the billing repository operates on: the four
billing tables. -/
structure BillingState where
  wallets : List CreditWallet
  ledger : List TokenLedger
  subscriptions : List Subscription
  transactions : List PaymentTransaction
deriving Repr, DecidableEq

/-! ## Cost model (`services/billing.py`, module-level functions) -/

/-- Lookup in the `BILLING_MODEL_MULTIPLIERS` dict. -/
def lookupMultiplier (ms : List (String × ℚ)) (k : String) : Option ℚ :=
  (ms.find? (fun p => p.1 == k)).map (fun p => p.2)

/-- `get_model_multiplier(model_name)`: use the model's entry when
`model_name` is truthy and present, else the `"default"` entry, else 1.0. -/
def get_model_multiplier (s : Settings) (model_name : Option String) : ℚ :=
  match model_name with
  | some m =>
    if m ≠ "" then
      match lookupMultiplier s.BILLING_MODEL_MULTIPLIERS m with
      | some q => q
      | none => (lookupMultiplier s.BILLING_MODEL_MULTIPLIERS "default").getD 1
    else (lookupMultiplier s.BILLING_MODEL_MULTIPLIERS "default").getD 1
  | none => (lookupMultiplier s.BILLING_MODEL_MULTIPLIERS "default").getD 1

/-- `calculate_cost_credits(total_tokens, model_name)`: 0 for non-positive
usage, otherwise `math.ceil((total_tokens / tokens_per_credit) * multiplier)`
with `tokens_per_credit = max(settings.BILLING_TOKENS_PER_CREDIT, 1)`. -/
def calculate_cost_credits (s : Settings) (total_tokens : Int) (model_name : Option String) : Int :=
  if total_tokens ≤ 0 then 0
  else
    let tokens_per_credit := max s.BILLING_TOKENS_PER_CREDIT 1
    let multiplier := get_model_multiplier s model_name
    ⌈(total_tokens : ℚ) / (tokens_per_credit : ℚ) * multiplier⌉

/-! ## Repository (`repositories/billing.py`) -/

/-- `get_wallet_by_user_id`. -/
def get_wallet_by_user_id (st : BillingState) (uid : UserId) : Option CreditWallet :=
  st.wallets.find? (fun w => w.user_id == uid)

/-- `create_wallet` (defaults `monthly_remaining=0, prepaid_balance=0`);
the INSERT appends the new row. -/
def create_wallet (st : BillingState) (uid : UserId) : CreditWallet × BillingState :=
  let wallet : CreditWallet := ⟨uid, 0, 0⟩
  (wallet, { st with wallets := st.wallets ++ [wallet] })

/-- `update_wallet`: persist the mutated wallet row (UPDATE keyed on
`user_id`). -/
def update_wallet (st : BillingState) (w : CreditWallet) : BillingState :=
  { st with wallets := st.wallets.map (fun x => if x.user_id == w.user_id then w else x) }

/-- `get_latest_subscription`: most recent subscription for the user
(list is newest-first). -/
def get_latest_subscription (st : BillingState) (uid : UserId) : Option Subscription :=
  st.subscriptions.find? (fun x => x.user_id == uid)

/-- Replace the first element satisfying `p` (UPDATE of the latest row). -/
def replaceFirst {α : Type} (l : List α) (p : α → Bool) (w : α) : List α :=
  match l with
  | [] => []
  | x :: xs => if p x then w :: xs else x :: replaceFirst xs p w

/-- `upsert_subscription`: update the latest subscription row for the user
in place if one exists, else insert a new row (which becomes the latest). -/
def upsert_subscription (st : BillingState) (uid : UserId) (provider : String)
    (provider_subscription_id : Option String) (status : String) (plan_name : Option String)
    (monthly_credits : Int) (current_period_start current_period_end : Option Int)
    (metadata : Option (List (String × String))) : Subscription × BillingState :=
  let row : Subscription :=
    ⟨uid, provider, provider_subscription_id, status, plan_name, monthly_credits,
      current_period_start, current_period_end, metadata⟩
  match get_latest_subscription st uid with
  | some _ =>
    (row, { st with subscriptions := replaceFirst st.subscriptions (fun x => x.user_id == uid) row })
  | none =>
    (row, { st with subscriptions := row :: st.subscriptions })

/-- `create_ledger_entry`: append-only INSERT (newest-first list). -/
def create_ledger_entry (st : BillingState) (uid : UserId) (model_name : Option String)
    (prompt_tokens completion_tokens : Option Int) (total_tokens cost_credits overage_credits : Int)
    (provider_request_id : Option String) (metadata : Option (List (String × String))) :
    TokenLedger × BillingState :=
  let entry : TokenLedger :=
    ⟨uid, model_name, prompt_tokens, completion_tokens, total_tokens, cost_credits,
      overage_credits, provider_request_id, metadata⟩
  (entry, { st with ledger := entry :: st.ledger })

/-- `get_transaction_by_external_id`: lookup keyed on `external_id` alone. -/
def get_transaction_by_external_id (st : BillingState) (external_id : String) :
    Option PaymentTransaction :=
  st.transactions.find? (fun t => t.external_id == external_id)

/-- `create_transaction`: append-only INSERT (newest-first list). -/
def create_transaction (st : BillingState) (uid : UserId) (provider external_id kind status : String)
    (amount : Option ℚ) (currency : Option String) (credits_granted : Int)
    (metadata : Option (List (String × String))) : PaymentTransaction × BillingState :=
  let tx : PaymentTransaction :=
    ⟨uid, provider, external_id, kind, status, amount, currency, credits_granted, metadata⟩
  (tx, { st with transactions := tx :: st.transactions })

/-! ## Billing service (`services/billing.py`, class `BillingService`) -/

/-- `BillingService.get_wallet`: fetch or lazily create the user's wallet. -/
def get_wallet (st : BillingState) (uid : UserId) : CreditWallet × BillingState :=
  match get_wallet_by_user_id st uid with
  | some w => (w, st)
  | none => create_wallet st uid

/-- Payload of the `PaymentRequiredError` raised by `precheck`. -/
structure PaymentRequiredError where
  required_credits : Int
  available_credits : Int
deriving Repr, DecidableEq

/-- `BillingService.precheck`: raise `PaymentRequiredError` when
`monthly_remaining + prepaid_balance < cost`, otherwise return the cost
(and, through `get_wallet`, the possibly-extended state). -/
def precheck (s : Settings) (st : BillingState) (uid : UserId) (model_name : Option String)
    (estimated_tokens : Int) : Except PaymentRequiredError (Int × BillingState) :=
  let out := get_wallet st uid
  let wallet := out.1
  let cost := calculate_cost_credits s estimated_tokens model_name
  let available := wallet.monthly_remaining + wallet.prepaid_balance
  if available < cost then .error ⟨cost, available⟩
  else .ok (cost, out.2)

/-- `BillingService.commit_usage`: deduct monthly-first, then prepaid, log
any remainder as overage, persist the wallet and append the ledger row.
Total: there is no insufficient-funds error path. -/
def commit_usage (s : Settings) (st : BillingState) (uid : UserId) (model_name : Option String)
    (prompt_tokens completion_tokens : Option Int) (total_tokens : Int)
    (provider_request_id : Option String) (metadata : Option (List (String × String))) :
    TokenLedger × BillingState :=
  let out := get_wallet st uid
  let wallet := out.1
  let cost := calculate_cost_credits s total_tokens model_name
  let monthly_deducted := min wallet.monthly_remaining cost
  let remaining := cost - monthly_deducted
  let prepaid_deducted := min wallet.prepaid_balance remaining
  let overage := cost - monthly_deducted - prepaid_deducted
  let wallet' : CreditWallet :=
    { wallet with
        monthly_remaining := wallet.monthly_remaining - monthly_deducted
        prepaid_balance := wallet.prepaid_balance - prepaid_deducted }
  let st2 := update_wallet out.2 wallet'
  create_ledger_entry st2 uid model_name prompt_tokens completion_tokens total_tokens
    cost overage provider_request_id metadata

/-- `BillingService.grant_monthly_allowance`: reset `monthly_remaining` to
`settings.BILLING_MONTHLY_CREDITS` and upsert the subscription row. -/
def grant_monthly_allowance (s : Settings) (st : BillingState) (uid : UserId) (provider : String)
    (provider_subscription_id : Option String) (status : String) (plan_name : Option String)
    (current_period_start current_period_end : Option Int)
    (metadata : Option (List (String × String))) : Subscription × BillingState :=
  let out := get_wallet st uid
  let wallet' : CreditWallet := { out.1 with monthly_remaining := s.BILLING_MONTHLY_CREDITS }
  let st2 := update_wallet out.2 wallet'
  upsert_subscription st2 uid provider provider_subscription_id status plan_name
    s.BILLING_MONTHLY_CREDITS current_period_start current_period_end metadata

/-- `BillingService.apply_pack_purchase`: no-op when a transaction with the
`external_id` exists; otherwise add the prepaid credits and record a
`credit_pack` transaction. -/
def apply_pack_purchase (st : BillingState) (uid : UserId)
    (provider external_id : String) (credits : Int) (amount : Option ℚ)
    (currency : Option String) (metadata : Option (List (String × String))) : BillingState :=
  match get_transaction_by_external_id st external_id with
  | some _ => st
  | none =>
    let out := get_wallet st uid
    let wallet' : CreditWallet := { out.1 with prepaid_balance := out.1.prepaid_balance + credits }
    let st2 := update_wallet out.2 wallet'
    (create_transaction st2 uid provider external_id "credit_pack" "completed" amount currency
      credits metadata).2

/-- `BillingService.record_subscription_payment`: no-op when a transaction
with the `external_id` exists; otherwise record a `subscription`
transaction (wallet untouched). -/
def record_subscription_payment (s : Settings) (st : BillingState) (uid : UserId)
    (provider external_id : String) (amount : Option ℚ) (currency : Option String)
    (metadata : Option (List (String × String))) : BillingState :=
  match get_transaction_by_external_id st external_id with
  | some _ => st
  | none =>
    (create_transaction st uid provider external_id "subscription" "completed" amount currency
      s.BILLING_MONTHLY_CREDITS metadata).2

/-! ## Creem webhook route (`api/routes/webhooks/creem.py`) -/

/-- Python truthiness of an optional string (`None` and `""` are falsy). -/
def pyTruthy (o : Option String) : Bool :=
  match o with
  | some v => v ≠ ""
  | none => false

/-- Python `a or b` on optional strings. -/
def pyOrStr (a b : Option String) : Option String :=
  if pyTruthy a then a else b

/-- `dict.get` on a metadata dict. -/
def dictGet (d : List (String × String)) (k : String) : Option String :=
  (d.find? (fun p => p.1 == k)).map (fun p => p.2)

/-- `d.update(u)`: keys of `u` override those of `d`. -/
def dictUpdate (d u : List (String × String)) : List (String × String) :=
  d.filter (fun p => (u.find? (fun q => q.1 == p.1)).isNone) ++ u

/-- The `product` object of a `checkout.completed` payload
(`data.get("product")`). -/
structure ProductObject where
  id : Option String
  name : Option String
  billing_type : Option String
deriving Repr, DecidableEq

/-- The `order` object of the payload (`data.get("order")`); `amount` is a
JSON number in the provider's minor units. -/
structure OrderObject where
  type : Option String
  amount : Option ℚ
  currency : Option String
deriving Repr, DecidableEq

/-- The nested `subscription` object of the payload, when it is a dict. -/
structure SubscriptionObject where
  id : Option String
  metadata_ : Option (List (String × String))
deriving Repr, DecidableEq

/-- `event.get("object", {})` of a parsed Creem payload. -/
structure EventObject where
  metadata_ : Option (List (String × String))
  subscription : Option SubscriptionObject
  product : Option ProductObject
  order : Option OrderObject
deriving Repr, DecidableEq

/-- A parsed Creem webhook event (the JSON dict `creem.parse_event`
returns, restricted to the keys the handler reads). -/
structure CreemEvent where
  eventType : Option String
  id : Option String
  object : EventObject
deriving Repr, DecidableEq

/-- The JSON responses the handler returns. -/
inductive WebhookResponse where
  | ok
  | ignored (reason : Option String)
deriving Repr, DecidableEq

/-- `_resolve_pack_credits(product_id)`: first configured pack whose
`provider_product_id` equals the (truthy) product id. -/
def resolve_pack_credits (s : Settings) (product_id : Option String) : Option Int :=
  match product_id with
  | none => none
  | some pid =>
    if pid = "" then none
    else (s.BILLING_CREDIT_PACKS.find? (fun p => p.provider_product_id == some pid)).map
      (fun p => p.credits)

/-- The handler's `metadata` local: `data.get("metadata") or {}`, merged
(overridden) with the nested subscription's metadata when that is a
non-empty dict. -/
def eventMetadata (ev : CreemEvent) : List (String × String) :=
  let metadata0 := ev.object.metadata_.getD []
  match ev.object.subscription with
  | some sub =>
    match sub.metadata_ with
    | some sm => if sm.isEmpty then metadata0 else dictUpdate metadata0 sm
    | none => metadata0
  | none => metadata0

/-- The handler's `user_id_raw` local:
`metadata.get("user_id") or metadata.get("internal_customer_id")`. -/
def eventUserRaw (ev : CreemEvent) : Option String :=
  pyOrStr (dictGet (eventMetadata ev) "user_id")
    (dictGet (eventMetadata ev) "internal_customer_id")

/-- The handler's `product_id` local: `(data.get("product") or {}).get("id")`. -/
def eventProductId (ev : CreemEvent) : Option String :=
  ev.object.product.bind (fun p => p.id)

/-- The handler's `billing_type` local:
`product.get("billing_type") or order.get("type")`. -/
def eventBillingType (ev : CreemEvent) : Option String :=
  pyOrStr (ev.object.product.bind (fun p => p.billing_type))
    (ev.object.order.bind (fun o => o.type))

/-- The handler's `amount` local: the order amount (minor units) divided
by 100, when it is a number. -/
def eventAmount (ev : CreemEvent) : Option ℚ :=
  (ev.object.order.bind (fun o => o.amount)).map (fun a => a / 100)

/-- The handler's `currency` local: `order.get("currency")`. -/
def eventCurrency (ev : CreemEvent) : Option String :=
  ev.object.order.bind (fun o => o.currency)

/-- The dispatch logic of `creem_webhook` after signature verification and
JSON parsing: metadata merge, user extraction, recurring/one-time
classification, and the calls into `BillingService`. `parseUserId` stands
for Python's `uuid.UUID` constructor (`none` = `ValueError`). -/
def process_creem_event (parseUserId : String → Option UserId) (s : Settings)
    (st : BillingState) (ev : CreemEvent) : WebhookResponse × BillingState :=
  if ev.eventType == some "checkout.completed" then
    if ¬ pyTruthy (eventUserRaw ev) then (.ignored (some "missing_user_id"), st)
    else
      match parseUserId ((eventUserRaw ev).getD "") with
      | none => (.ignored (some "invalid_user_id"), st)
      | some user_id =>
        if eventBillingType ev == some "recurring"
            || eventProductId ev == some s.CREEM_SUBSCRIPTION_PRODUCT_ID then
          (.ok, record_subscription_payment s
            (grant_monthly_allowance s st user_id "creem"
              (ev.object.subscription.bind (fun x => x.id)) "active"
              (ev.object.product.bind (fun p => p.name)) none none
              (some (eventMetadata ev))).2
            user_id "creem" (ev.id.getD "") (eventAmount ev) (eventCurrency ev)
            (some (eventMetadata ev)))
        else
          match resolve_pack_credits s (eventProductId ev) with
          | none => (.ignored (some "unknown_pack"), st)
          | some credits =>
            if credits = 0 then (.ignored (some "unknown_pack"), st)
            else
              (.ok, apply_pack_purchase st user_id "creem" (ev.id.getD "") credits
                (eventAmount ev) (eventCurrency ev) (some (eventMetadata ev)))
  else (.ignored none, st)

/-! ### Dynamically typed handler body over raw parsed JSON

`json.loads` can return any JSON value, not only a well-shaped event
dict. `Json` covers every possible parse result, and `handler_body`
re-runs the route handler's statements in source order over such a value,
with an `Except`-level `throw` at each point where the Python body would
raise an uncaught exception (`.get`/`.update` attribute errors on
non-dict values, `uuid.UUID` on a truthy non-string).
`process_creem_event` above is the same dispatch restricted to
well-shaped provider events (the shape quantified over by the
idempotence and ignore claims). -/

/-- A parsed JSON value (any possible result of `json.loads`). -/
inductive Json where
  | null
  | bool (b : Bool)
  | num (q : ℚ)
  | str (s : String)
  | arr (elems : List Json)
  | obj (fields : List (String × Json))

/-- Python truthiness of a JSON value. -/
def jsonTruthy : Json → Bool
  | .null => false
  | .bool b => b
  | .num q => decide (q ≠ 0)
  | .str s => decide (s ≠ "")
  | .arr xs => !xs.isEmpty
  | .obj fs => !fs.isEmpty

/-- Whether a JSON value is a dict. -/
def isObj : Json → Bool
  | .obj _ => true
  | _ => false

/-- Python `value == "literal"`: only a string can equal a string. -/
def jsonEqStr : Json → String → Bool
  | .str s, t => s == t
  | _, _ => false

/-- `dict.get(k)` on a JSON object's fields. -/
def jsonGet (fields : List (String × Json)) (k : String) : Option Json :=
  (fields.find? (fun p => p.1 == k)).map (fun p => p.2)

/-- `dict.get(k, default)`; a stored `null` is returned as `null`, the
default only covers a missing key, as in Python. -/
def jsonGetD (fields : List (String × Json)) (k : String) (d : Json) : Json :=
  (jsonGet fields k).getD d

/-- Python `a or b` on JSON values. -/
def pyOrJson (a b : Json) : Json :=
  if jsonTruthy a then a else b

/-- `d.update(u)` for two JSON dicts: keys of `u` override those of `d`. -/
def jsonDictUpdate (d u : List (String × Json)) : List (String × Json) :=
  d.filter (fun p => (u.find? (fun q => q.1 == p.1)).isNone) ++ u

/-- The string view of a JSON value headed for a string column
(non-strings are outside the claims; the store keeps their string view). -/
def jsonAsString : Json → String
  | .str s => s
  | _ => ""

/-- A JSON value as an optional string. -/
def jsonAsOptString : Json → Option String
  | .str s => some s
  | _ => none

/-- `isinstance(x, (int, float))` plus numeric value; a JSON boolean is a
Python `bool`, which is an `int`. -/
def jsonAsNumber : Json → Option ℚ
  | .num q => some q
  | .bool b => some (if b then 1 else 0)
  | _ => none

/-- The string view of a JSON dict, for the stores' metadata columns. -/
def jsonObjToStrDict (fields : List (String × Json)) : List (String × String) :=
  fields.map (fun p => (p.1, jsonAsString p.2))

/-- Source lines `metadata = data.get("metadata") or {}` through
`metadata.update(subscription_meta)`: the merged metadata dict, or the
uncaught exception — `.get`/`.update` on a truthy non-dict `metadata`
raises `AttributeError`, and `dict.update` with a non-dict argument
raises (Python's acceptance of exotic pair-sequence arguments to
`update` is simplified to a raise). -/
def handler_metadata (dataFields : List (String × Json)) :
    Except String (List (String × Json)) :=
  let metadataJ := pyOrJson (jsonGetD dataFields "metadata" .null) (.obj [])
  let subscription_meta :=
    match jsonGetD dataFields "subscription" .null with
    | .obj subFields => jsonGetD subFields "metadata" .null
    | _ => .null
  if jsonTruthy subscription_meta then
    match metadataJ, subscription_meta with
    | .obj mfs, .obj sfs => .ok (jsonDictUpdate mfs sfs)
    | .obj _, _ => .error "TypeError: update argument is not a mapping"
    | _, _ => .error "AttributeError: no attribute update"
  else
    match metadataJ with
    | .obj mfs => .ok mfs
    | _ => .error "AttributeError: no attribute get"

/-- Source lines from `try: user_id = UUID(user_id_raw)` to the end of
the handler: a truthy non-string user id raises `AttributeError` inside
`UUID` (not the caught `ValueError`); otherwise dispatch to the billing
service. Values headed for string columns are taken through their string
view. -/
def handler_dispatch (parseUserId : String → Option UserId) (s : Settings) (st : BillingState)
    (eventFields dataFields mfs pfs ofs : List (String × Json)) (user_id_raw : Json) :
    Except String (WebhookResponse × BillingState) :=
  let product_id := jsonGetD pfs "id" .null
  let billing_type := pyOrJson (jsonGetD pfs "billing_type" .null) (jsonGetD ofs "type" .null)
  let amount := (jsonAsNumber (jsonGetD ofs "amount" .null)).map (fun a => a / 100)
  let currency := jsonAsOptString (jsonGetD ofs "currency" .null)
  match user_id_raw with
  | .str raw =>
    match parseUserId raw with
    | none => .ok (.ignored (some "invalid_user_id"), st)
    | some user_id =>
      if jsonEqStr billing_type "recurring"
          || jsonEqStr product_id s.CREEM_SUBSCRIPTION_PRODUCT_ID then
        .ok (.ok, record_subscription_payment s
          (grant_monthly_allowance s st user_id "creem"
            (match jsonGetD dataFields "subscription" .null with
             | .obj subFields => jsonAsOptString (jsonGetD subFields "id" .null)
             | _ => none)
            "active" (jsonAsOptString (jsonGetD pfs "name" .null)) none none
            (some (jsonObjToStrDict mfs))).2
          user_id "creem" (jsonAsString (jsonGetD eventFields "id" (.str "")))
          amount currency (some (jsonObjToStrDict mfs)))
      else
        match resolve_pack_credits s (jsonAsOptString product_id) with
        | none => .ok (.ignored (some "unknown_pack"), st)
        | some credits =>
          if credits = 0 then .ok (.ignored (some "unknown_pack"), st)
          else
            .ok (.ok, apply_pack_purchase st user_id "creem"
              (jsonAsString (jsonGetD eventFields "id" (.str ""))) credits
              amount currency (some (jsonObjToStrDict mfs)))
  | _ => .error "AttributeError: no attribute replace"

/-- Source lines `user_id_raw = metadata.get("user_id") or ...` through
`product.get(...)`/`order.get(...)`: the missing-user early return, then
the product/order attribute accesses (which in Python raise before the
`UUID` conversion runs), then `handler_dispatch`. -/
def handler_stage3 (parseUserId : String → Option UserId) (s : Settings) (st : BillingState)
    (eventFields dataFields mfs : List (String × Json)) :
    Except String (WebhookResponse × BillingState) :=
  let user_id_raw := pyOrJson (jsonGetD mfs "user_id" .null)
    (jsonGetD mfs "internal_customer_id" .null)
  if ¬ jsonTruthy user_id_raw then .ok (.ignored (some "missing_user_id"), st)
  else
    match pyOrJson (jsonGetD dataFields "product" .null) (.obj []) with
    | .obj pfs =>
      match pyOrJson (jsonGetD dataFields "order" .null) (.obj []) with
      | .obj ofs =>
        handler_dispatch parseUserId s st eventFields dataFields mfs pfs ofs user_id_raw
      | _ => .error "AttributeError: no attribute get"
    | _ => .error "AttributeError: no attribute get"

/-- The handler body from the metadata extraction on, once
`data = event.get("object", {})` turned out to be a dict. -/
def handler_stage2 (parseUserId : String → Option UserId) (s : Settings) (st : BillingState)
    (eventFields dataFields : List (String × Json)) :
    Except String (WebhookResponse × BillingState) :=
  match handler_metadata dataFields with
  | .error e => .error e
  | .ok mfs => handler_stage3 parseUserId s st eventFields dataFields mfs

/-- The `creem_webhook` body after `parse_event`, over the raw parsed
JSON value, with Python's dynamic typing: every `.error` is an uncaught
exception at the corresponding source line. `event.get` on a non-dict
payload and `data.get` on a non-dict `object` value raise
`AttributeError`; the later stages raise as documented on
`handler_metadata` and `handler_dispatch`. -/
def handler_body (parseUserId : String → Option UserId) (s : Settings) (st : BillingState)
    (event : Json) : Except String (WebhookResponse × BillingState) :=
  match event with
  | .obj eventFields =>
    if ¬ jsonEqStr (jsonGetD eventFields "eventType" .null) "checkout.completed" then
      .ok (.ignored none, st)
    else
      match jsonGetD eventFields "object" (.obj []) with
      | .obj dataFields => handler_stage2 parseUserId s st eventFields dataFields
      | _ => .error "AttributeError: no attribute get"
  | _ => .error "AttributeError: no attribute get"

/-- Outcome of one invocation of the route handler. -/
inductive HandlerOutcome where
  | response (r : WebhookResponse) (st : BillingState)
  | httpError (statusCode : Nat) (detail : String)
  | uncaught (e : String)
deriving Repr, DecidableEq

/-- The full route handler `creem_webhook`. `sigOk` is the outcome of
`creem.verify_signature` over the raw bytes; `parsed` is the outcome of
`creem.parse_event` (`json.loads`), carrying any JSON value on success.
The handler body contains no `try/except`: a parse failure propagates,
and so does every dynamic-typing error `handler_body` raises on
unexpectedly shaped valid JSON. -/
def creem_webhook (parseUserId : String → Option UserId) (s : Settings) (st : BillingState)
    (sigOk : Bool) (parsed : Except String Json) : HandlerOutcome :=
  if ¬ sigOk then .httpError 400 "Invalid signature"
  else
    match parsed with
    | .error e => .uncaught e
    | .ok j =>
      match handler_body parseUserId s st j with
      | .ok out => .response out.1 out.2
      | .error e => .uncaught e

/-- An optional string as a JSON value (`null` for absent). -/
def encodeOptStr : Option String → Json
  | some s => .str s
  | none => .null

/-- A metadata dict of strings as a JSON object. -/
def encodeStrDict (d : List (String × String)) : Json :=
  .obj (d.map (fun p => (p.1, Json.str p.2)))

/-- An optional metadata dict as a JSON value. -/
def encodeOptDict : Option (List (String × String)) → Json
  | some d => encodeStrDict d
  | none => .null

/-- A parsed subscription object as a JSON value. -/
def encodeSubscription : Option SubscriptionObject → Json
  | some sub => .obj [("id", encodeOptStr sub.id), ("metadata", encodeOptDict sub.metadata_)]
  | none => .null

/-- A parsed product object as a JSON value. -/
def encodeProduct : Option ProductObject → Json
  | some p => .obj [("id", encodeOptStr p.id), ("name", encodeOptStr p.name),
      ("billing_type", encodeOptStr p.billing_type)]
  | none => .null

/-- A parsed order object as a JSON value. -/
def encodeOrder : Option OrderObject → Json
  | some o => .obj [("type", encodeOptStr o.type),
      ("amount", match o.amount with | some a => Json.num a | none => Json.null),
      ("currency", encodeOptStr o.currency)]
  | none => .null

/-- The canonical JSON encoding of a well-shaped provider event: absent
optional values are encoded as `null` (indistinguishable from absent keys
under `.get`), except the event id, whose `.get("id", "")` default is
only taken for a missing key. -/
def encodeCreemEvent (ev : CreemEvent) : Json :=
  .obj ([("eventType", encodeOptStr ev.eventType),
    ("object", .obj [
      ("metadata", encodeOptDict ev.object.metadata_),
      ("subscription", encodeSubscription ev.object.subscription),
      ("product", encodeProduct ev.object.product),
      ("order", encodeOrder ev.object.order)])] ++
    (match ev.id with | some i => [("id", Json.str i)] | none => []))

/-! ## Observables and test fixture -/

/-- The monthly balance recorded for the user; 0 when no wallet row exists. -/
def monthlyOf (st : BillingState) (uid : UserId) : Int :=
  match get_wallet_by_user_id st uid with
  | some w => w.monthly_remaining
  | none => 0

/-- The prepaid balance recorded for the user; 0 when no wallet row exists. -/
def prepaidOf (st : BillingState) (uid : UserId) : Int :=
  match get_wallet_by_user_id st uid with
  | some w => w.prepaid_balance
  | none => 0

/-- Number of stored payment transactions carrying the given external id. -/
def txCount (st : BillingState) (eid : String) : Nat :=
  (st.transactions.filter (fun t => t.external_id == eid)).length

/-- The default configuration of `app/core/config.py` (50 monthly credits,
1000 tokens per credit, default multiplier 1.0, one 2000-credit pack). -/
def testSettings : Settings :=
  ⟨50, 1000, [("default", 1)], [⟨2000, some "prod_pack_2000"⟩], "prod_sub"⟩

/-! ## Generic list lemmas -/

theorem find?_map_ite {α : Type} (l : List α) (p : α → Bool) (w : α) (hw : p w = true)
    (h : (l.find? p).isSome) :
    (l.map (fun y => if p y then w else y)).find? p = some w := by
  induction l with
  | nil => simp at h
  | cons x xs ih =>
    by_cases hx : p x = true
    · simp only [List.map_cons, if_pos hx, List.find?_cons_of_pos _ hw]
    · rw [List.find?_cons_of_neg _ hx] at h
      simp only [List.map_cons, if_neg hx, List.find?_cons_of_neg _ hx]
      exact ih h

theorem map_ite_id {α : Type} (l : List α) (p : α → Bool) (w : α)
    (h : ∀ x ∈ l, p x = true → x = w) :
    l.map (fun y => if p y then w else y) = l := by
  induction l with
  | nil => rfl
  | cons x xs ih =>
    simp only [List.map_cons]
    rw [ih (fun y hy hp => h y (List.mem_cons_of_mem _ hy) hp)]
    by_cases hx : p x = true
    · rw [if_pos hx, h x (List.mem_cons_self _ _) hx]
    · rw [if_neg hx]

theorem mem_map_ite {α : Type} (l : List α) (p : α → Bool) (w : α) :
    ∀ x ∈ l.map (fun y => if p y then w else y), p x = true → x = w := by
  intro x hx hpx
  rcases List.mem_map.mp hx with ⟨y, _, hy⟩
  by_cases hp : p y = true
  · rw [if_pos hp] at hy; exact hy.symm
  · rw [if_neg hp] at hy; subst hy; exact absurd hpx hp

theorem find?_replaceFirst {α : Type} (l : List α) (p : α → Bool) (w : α) (hw : p w = true)
    (h : (l.find? p).isSome) : (replaceFirst l p w).find? p = some w := by
  induction l with
  | nil => simp at h
  | cons x xs ih =>
    by_cases hx : p x = true
    · simp only [replaceFirst, if_pos hx, List.find?_cons_of_pos _ hw]
    · rw [List.find?_cons_of_neg _ hx] at h
      simp only [replaceFirst, if_neg hx, List.find?_cons_of_neg _ hx]
      exact ih h

theorem replaceFirst_eq_self {α : Type} (l : List α) (p : α → Bool) (w : α)
    (h : l.find? p = some w) : replaceFirst l p w = l := by
  induction l with
  | nil => rfl
  | cons x xs ih =>
    by_cases hx : p x = true
    · rw [List.find?_cons_of_pos _ hx] at h
      injection h with h
      subst h
      simp only [replaceFirst, if_pos hx]
    · rw [List.find?_cons_of_neg _ hx] at h
      simp only [replaceFirst, if_neg hx, List.cons.injEq, true_and]
      exact ih h

/-! ## Wallet and store lemmas -/

theorem get_wallet_of_found {st : BillingState} {uid : UserId} {w : CreditWallet}
    (h : get_wallet_by_user_id st uid = some w) : get_wallet st uid = (w, st) := by
  unfold get_wallet
  rw [h]

theorem get_wallet_of_missing {st : BillingState} {uid : UserId}
    (h : get_wallet_by_user_id st uid = none) :
    get_wallet st uid = (⟨uid, 0, 0⟩, { st with wallets := st.wallets ++ [⟨uid, 0, 0⟩] }) := by
  unfold get_wallet create_wallet
  rw [h]

theorem get_wallet_user_id (st : BillingState) (uid : UserId) :
    (get_wallet st uid).1.user_id = uid := by
  cases h : get_wallet_by_user_id st uid with
  | some w =>
    rw [get_wallet_of_found h]
    have := List.find?_some h
    simpa using this
  | none => rw [get_wallet_of_missing h]

theorem get_wallet_found (st : BillingState) (uid : UserId) :
    get_wallet_by_user_id (get_wallet st uid).2 uid = some (get_wallet st uid).1 := by
  cases h : get_wallet_by_user_id st uid with
  | some w => rw [get_wallet_of_found h]; exact h
  | none =>
    rw [get_wallet_of_missing h]
    unfold get_wallet_by_user_id at h ⊢
    simp [List.find?_append, h]

theorem get_wallet_preserves (st : BillingState) (uid : UserId) :
    (get_wallet st uid).2.ledger = st.ledger ∧
    (get_wallet st uid).2.subscriptions = st.subscriptions ∧
    (get_wallet st uid).2.transactions = st.transactions := by
  cases h : get_wallet_by_user_id st uid with
  | some w => rw [get_wallet_of_found h]; exact ⟨rfl, rfl, rfl⟩
  | none => rw [get_wallet_of_missing h]; exact ⟨rfl, rfl, rfl⟩

theorem update_wallet_lookup (st : BillingState) (w : CreditWallet)
    (h : ((st.wallets.find? (fun x => x.user_id == w.user_id))).isSome) :
    get_wallet_by_user_id (update_wallet st w) w.user_id = some w := by
  unfold get_wallet_by_user_id update_wallet
  exact find?_map_ite st.wallets (fun x => x.user_id == w.user_id) w (by simp) h

theorem update_wallet_all_eq (st : BillingState) (w : CreditWallet) :
    ∀ x ∈ (update_wallet st w).wallets, (x.user_id == w.user_id) = true → x = w := by
  unfold update_wallet
  exact mem_map_ite st.wallets (fun x => x.user_id == w.user_id) w

theorem update_wallet_of_all_eq (st : BillingState) (w : CreditWallet)
    (h : ∀ x ∈ st.wallets, (x.user_id == w.user_id) = true → x = w) :
    update_wallet st w = st := by
  unfold update_wallet
  rw [map_ite_id st.wallets (fun x => x.user_id == w.user_id) w h]

theorem upsert_preserves (st : BillingState) (uid : UserId) (provider : String)
    (psid : Option String) (status : String) (plan : Option String) (mc : Int)
    (cps cpe : Option Int) (md : Option (List (String × String))) :
    (upsert_subscription st uid provider psid status plan mc cps cpe md).2.wallets = st.wallets ∧
    (upsert_subscription st uid provider psid status plan mc cps cpe md).2.ledger = st.ledger ∧
    (upsert_subscription st uid provider psid status plan mc cps cpe md).2.transactions
      = st.transactions := by
  unfold upsert_subscription
  cases get_latest_subscription st uid <;> exact ⟨rfl, rfl, rfl⟩

theorem upsert_latest (st : BillingState) (uid : UserId) (provider : String)
    (psid : Option String) (status : String) (plan : Option String) (mc : Int)
    (cps cpe : Option Int) (md : Option (List (String × String))) :
    get_latest_subscription (upsert_subscription st uid provider psid status plan mc cps cpe md).2
      uid = some (upsert_subscription st uid provider psid status plan mc cps cpe md).1 := by
  unfold upsert_subscription
  cases h : get_latest_subscription st uid with
  | some sub =>
    unfold get_latest_subscription at h ⊢
    exact find?_replaceFirst st.subscriptions (fun x => x.user_id == uid) _ (by simp)
      (by rw [h]; rfl)
  | none =>
    unfold get_latest_subscription
    simp [List.find?_cons]

/-! ## Claim C4: cost model -/

/-- C4: for every model_name, `calculate_cost_credits` returns 0 when
`total_tokens <= 0` and otherwise
`ceil((total_tokens / tokens_per_credit) * model_multiplier(model_name))`;
in particular, for every `total_tokens > 0` the result is strictly
positive (rounding up, never undercharging). Stated for configurations
with `tokens_per_credit >= 1` and a positive multiplier, as in the
shipped configuration. -/
theorem calculate_cost_credits_spec (s : Settings) (total_tokens : Int)
    (model_name : Option String)
    (htpc : 1 ≤ s.BILLING_TOKENS_PER_CREDIT)
    (hmul : 0 < get_model_multiplier s model_name) :
    (total_tokens ≤ 0 → calculate_cost_credits s total_tokens model_name = 0) ∧
    (0 < total_tokens →
      calculate_cost_credits s total_tokens model_name =
        ⌈(total_tokens : ℚ) / (s.BILLING_TOKENS_PER_CREDIT : ℚ)
          * get_model_multiplier s model_name⌉ ∧
      0 < calculate_cost_credits s total_tokens model_name) := by
  have hmax : max s.BILLING_TOKENS_PER_CREDIT 1 = s.BILLING_TOKENS_PER_CREDIT :=
    max_eq_left htpc
  constructor
  · intro h
    simp [calculate_cost_credits, h]
  · intro h
    have hnle : ¬ total_tokens ≤ 0 := not_le.mpr h
    have htpcQ : (0 : ℚ) < (s.BILLING_TOKENS_PER_CREDIT : ℚ) := by
      exact_mod_cast lt_of_lt_of_le one_pos htpc
    constructor
    · simp only [calculate_cost_credits, if_neg hnle, hmax]
    · simp only [calculate_cost_credits, if_neg hnle, hmax]
      refine Int.ceil_pos.mpr (mul_pos (div_pos ?_ htpcQ) hmul)
      exact_mod_cast h

/-- Witness for C4 at the shipped configuration: 2500 tokens at 1000
tokens/credit and multiplier 1 cost `ceil(2.5) = 3 > 0` credits. -/
theorem calculate_cost_credits_spec_witness :
    (1 ≤ testSettings.BILLING_TOKENS_PER_CREDIT ∧
      0 < get_model_multiplier testSettings none ∧ (0 : Int) < 2500) ∧
    (calculate_cost_credits testSettings 2500 none =
      ⌈(2500 : ℚ) / (testSettings.BILLING_TOKENS_PER_CREDIT : ℚ)
        * get_model_multiplier testSettings none⌉ ∧
      0 < calculate_cost_credits testSettings 2500 none) ∧
    calculate_cost_credits testSettings 2500 none = 3 := by
  have h := (calculate_cost_credits_spec testSettings 2500 none (by decide)
    (by decide)).2 (by decide)
  refine ⟨⟨by decide, by decide, by decide⟩, h, ?_⟩
  rw [h.1]
  have : get_model_multiplier testSettings none = 1 := by decide
  rw [this, testSettings]
  rw [Int.ceil_eq_iff]
  norm_num

/-! ## Claim C5: grant_monthly_allowance resets -/

theorem grant_wallet_lookup (s : Settings) (st : BillingState) (uid : UserId)
    (provider : String) (psid : Option String) (status : String) (plan : Option String)
    (cps cpe : Option Int) (md : Option (List (String × String))) :
    get_wallet_by_user_id
        (grant_monthly_allowance s st uid provider psid status plan cps cpe md).2 uid =
      some { (get_wallet st uid).1 with monthly_remaining := s.BILLING_MONTHLY_CREDITS } := by
  unfold grant_monthly_allowance
  have huid : ((get_wallet st uid).1.user_id) = uid := get_wallet_user_id st uid
  rcases upsert_preserves
    (update_wallet (get_wallet st uid).2
      { (get_wallet st uid).1 with monthly_remaining := s.BILLING_MONTHLY_CREDITS })
    uid provider psid status plan s.BILLING_MONTHLY_CREDITS cps cpe md with ⟨hw, -, -⟩
  simp only [get_wallet_by_user_id] at *
  rw [hw]
  have h := update_wallet_lookup (get_wallet st uid).2
    { (get_wallet st uid).1 with monthly_remaining := s.BILLING_MONTHLY_CREDITS }
    (by
      have := get_wallet_found st uid
      simp only [get_wallet_by_user_id] at this
      simp only [huid]
      rw [this]; rfl)
  simp only [get_wallet_by_user_id, huid] at h
  simp only [huid]
  exact h

/-- C5: `grant_monthly_allowance` sets `monthly_remaining` to the
configured monthly credit amount regardless of its prior value (a reset:
granting twice yields the same `monthly_remaining` as granting once) and
leaves `prepaid_balance` unchanged. -/
theorem grant_monthly_allowance_resets (s : Settings) (st : BillingState) (uid : UserId)
    (provider : String) (psid : Option String) (status : String) (plan : Option String)
    (cps cpe : Option Int) (md : Option (List (String × String))) :
    monthlyOf (grant_monthly_allowance s st uid provider psid status plan cps cpe md).2 uid =
      s.BILLING_MONTHLY_CREDITS ∧
    prepaidOf (grant_monthly_allowance s st uid provider psid status plan cps cpe md).2 uid =
      prepaidOf st uid ∧
    monthlyOf (grant_monthly_allowance s
        (grant_monthly_allowance s st uid provider psid status plan cps cpe md).2
        uid provider psid status plan cps cpe md).2 uid =
      monthlyOf (grant_monthly_allowance s st uid provider psid status plan cps cpe md).2 uid := by
  refine ⟨?_, ?_, ?_⟩
  · unfold monthlyOf
    rw [grant_wallet_lookup]
  · unfold prepaidOf
    rw [grant_wallet_lookup]
    cases h : get_wallet_by_user_id st uid with
    | some w => rw [get_wallet_of_found h]
    | none => rw [get_wallet_of_missing h]
  · unfold monthlyOf
    rw [grant_wallet_lookup, grant_wallet_lookup]

/-! ## Claims C1 and C9: commit_usage -/

theorem update_after_get_wallet_lookup (st : BillingState) (uid : UserId) (w' : CreditWallet)
    (huid : w'.user_id = uid) :
    get_wallet_by_user_id (update_wallet (get_wallet st uid).2 w') uid = some w' := by
  have h := update_wallet_lookup (get_wallet st uid).2 w' (by
    rw [huid]
    have hf := get_wallet_found st uid
    simp only [get_wallet_by_user_id] at hf
    rw [hf]; rfl)
  rw [huid] at h
  exact h

theorem get_wallet_fst_monthly (st : BillingState) (uid : UserId) :
    (get_wallet st uid).1.monthly_remaining = monthlyOf st uid := by
  unfold monthlyOf
  cases h : get_wallet_by_user_id st uid with
  | some w => rw [get_wallet_of_found h]
  | none => rw [get_wallet_of_missing h]

theorem get_wallet_fst_prepaid (st : BillingState) (uid : UserId) :
    (get_wallet st uid).1.prepaid_balance = prepaidOf st uid := by
  unfold prepaidOf
  cases h : get_wallet_by_user_id st uid with
  | some w => rw [get_wallet_of_found h]
  | none => rw [get_wallet_of_missing h]

theorem commit_wallet_lookup (s : Settings) (st : BillingState) (uid : UserId)
    (mn : Option String) (pt ct : Option Int) (tt : Int) (pr : Option String)
    (md : Option (List (String × String))) :
    get_wallet_by_user_id (commit_usage s st uid mn pt ct tt pr md).2 uid =
      some { (get_wallet st uid).1 with
        monthly_remaining := (get_wallet st uid).1.monthly_remaining
          - min (get_wallet st uid).1.monthly_remaining (calculate_cost_credits s tt mn),
        prepaid_balance := (get_wallet st uid).1.prepaid_balance
          - min (get_wallet st uid).1.prepaid_balance
              (calculate_cost_credits s tt mn
                - min (get_wallet st uid).1.monthly_remaining
                    (calculate_cost_credits s tt mn)) } := by
  unfold commit_usage create_ledger_entry
  exact update_after_get_wallet_lookup st uid _ (get_wallet_user_id st uid)

theorem commit_entry_eq (s : Settings) (st : BillingState) (uid : UserId)
    (mn : Option String) (pt ct : Option Int) (tt : Int) (pr : Option String)
    (md : Option (List (String × String))) :
    (commit_usage s st uid mn pt ct tt pr md).1 =
      ⟨uid, mn, pt, ct, tt, calculate_cost_credits s tt mn,
        calculate_cost_credits s tt mn
          - min (get_wallet st uid).1.monthly_remaining (calculate_cost_credits s tt mn)
          - min (get_wallet st uid).1.prepaid_balance
              (calculate_cost_credits s tt mn
                - min (get_wallet st uid).1.monthly_remaining (calculate_cost_credits s tt mn)),
        pr, md⟩ := rfl

theorem commit_ledger_eq (s : Settings) (st : BillingState) (uid : UserId)
    (mn : Option String) (pt ct : Option Int) (tt : Int) (pr : Option String)
    (md : Option (List (String × String))) :
    (commit_usage s st uid mn pt ct tt pr md).2.ledger =
      (commit_usage s st uid mn pt ct tt pr md).1 :: st.ledger := by
  unfold commit_usage create_ledger_entry
  simp only [update_wallet]
  rw [(get_wallet_preserves st uid).1]

/-- C1: for every wallet state with non-negative balances (the store
invariant) and every `total_tokens`, `commit_usage` deducts in strict
order — monthly first (up to cost), then prepaid (up to the rest), the
remainder becoming overage — so deductions plus overage equal
`cost_credits`, neither balance goes negative, and the call is total
(never fails on insufficient funds). -/
theorem commit_usage_conservation (s : Settings) (st : BillingState) (uid : UserId)
    (mn : Option String) (pt ct : Option Int) (tt : Int) (pr : Option String)
    (md : Option (List (String × String)))
    (hm : 0 ≤ (get_wallet st uid).1.monthly_remaining)
    (hp : 0 ≤ (get_wallet st uid).1.prepaid_balance) :
    (get_wallet st uid).1.monthly_remaining
        - monthlyOf (commit_usage s st uid mn pt ct tt pr md).2 uid =
      min (get_wallet st uid).1.monthly_remaining (calculate_cost_credits s tt mn) ∧
    (get_wallet st uid).1.prepaid_balance
        - prepaidOf (commit_usage s st uid mn pt ct tt pr md).2 uid =
      min (get_wallet st uid).1.prepaid_balance
        (calculate_cost_credits s tt mn
          - ((get_wallet st uid).1.monthly_remaining
              - monthlyOf (commit_usage s st uid mn pt ct tt pr md).2 uid)) ∧
    ((get_wallet st uid).1.monthly_remaining
        - monthlyOf (commit_usage s st uid mn pt ct tt pr md).2 uid)
      + ((get_wallet st uid).1.prepaid_balance
          - prepaidOf (commit_usage s st uid mn pt ct tt pr md).2 uid)
      + (commit_usage s st uid mn pt ct tt pr md).1.overage_credits =
      (commit_usage s st uid mn pt ct tt pr md).1.cost_credits ∧
    (commit_usage s st uid mn pt ct tt pr md).1.cost_credits =
      calculate_cost_credits s tt mn ∧
    0 ≤ monthlyOf (commit_usage s st uid mn pt ct tt pr md).2 uid ∧
    0 ≤ prepaidOf (commit_usage s st uid mn pt ct tt pr md).2 uid := by
  have hl := commit_wallet_lookup s st uid mn pt ct tt pr md
  have h1 : monthlyOf (commit_usage s st uid mn pt ct tt pr md).2 uid =
      (get_wallet st uid).1.monthly_remaining
        - min (get_wallet st uid).1.monthly_remaining (calculate_cost_credits s tt mn) := by
    unfold monthlyOf
    rw [hl]
  have h2 : prepaidOf (commit_usage s st uid mn pt ct tt pr md).2 uid =
      (get_wallet st uid).1.prepaid_balance
        - min (get_wallet st uid).1.prepaid_balance
            (calculate_cost_credits s tt mn
              - min (get_wallet st uid).1.monthly_remaining
                  (calculate_cost_credits s tt mn)) := by
    unfold prepaidOf
    rw [hl]
  rw [h1, h2, commit_entry_eq s st uid mn pt ct tt pr md]
  set m := (get_wallet st uid).1.monthly_remaining
  set p := (get_wallet st uid).1.prepaid_balance
  set cost := calculate_cost_credits s tt mn
  refine ⟨by omega, by omega, ?_, rfl, by omega, by omega⟩
  simp only []
  omega

/-- Witness for C1 at the spec scenario: wallet `{monthly: 2, prepaid: 1}`
and cost 5 (5000 tokens at 1000/credit) end at `{0, 0}` with overage 2. -/
theorem commit_usage_conservation_witness :
    (0 ≤ (get_wallet ⟨[⟨1, 2, 1⟩], [], [], []⟩ 1).1.monthly_remaining ∧
      0 ≤ (get_wallet ⟨[⟨1, 2, 1⟩], [], [], []⟩ 1).1.prepaid_balance) ∧
    monthlyOf (commit_usage testSettings ⟨[⟨1, 2, 1⟩], [], [], []⟩ 1
      none none none 5000 none none).2 1 = 0 ∧
    prepaidOf (commit_usage testSettings ⟨[⟨1, 2, 1⟩], [], [], []⟩ 1
      none none none 5000 none none).2 1 = 0 ∧
    (commit_usage testSettings ⟨[⟨1, 2, 1⟩], [], [], []⟩ 1
      none none none 5000 none none).1.overage_credits = 2 ∧
    (commit_usage testSettings ⟨[⟨1, 2, 1⟩], [], [], []⟩ 1
      none none none 5000 none none).1.cost_credits = 5 := by
  have hc : calculate_cost_credits testSettings 5000 none = 5 := by
    rw [show calculate_cost_credits testSettings 5000 none =
      ⌈(5000 : ℚ) / ((max testSettings.BILLING_TOKENS_PER_CREDIT 1 : ℤ) : ℚ)
        * get_model_multiplier testSettings none⌉ from
      by simp only [calculate_cost_credits]; norm_num]
    rw [show get_model_multiplier testSettings none = 1 from by decide]
    rw [show (max testSettings.BILLING_TOKENS_PER_CREDIT 1 : ℤ) = 1000 from by decide]
    rw [Int.ceil_eq_iff]
    norm_num
  obtain ⟨e1, e2, e3, e4, e5, e6⟩ :=
    commit_usage_conservation testSettings ⟨[⟨1, 2, 1⟩], [], [], []⟩ 1
      none none none 5000 none none (by decide) (by decide)
  have hw : (get_wallet ⟨[⟨1, 2, 1⟩], [], [], []⟩ 1).1 = ⟨1, 2, 1⟩ := rfl
  rw [hc] at e1 e2 e4
  rw [hw] at e1 e2 e3
  simp only [show (⟨1, 2, 1⟩ : CreditWallet).monthly_remaining = 2 from rfl,
    show (⟨1, 2, 1⟩ : CreditWallet).prepaid_balance = 1 from rfl] at e1 e2 e3
  refine ⟨⟨by decide, by decide⟩, by omega, by omega, by omega, e4⟩

/-- C9: for every user with a non-negative wallet and every
`total_tokens <= 0` (cost 0), `commit_usage` still appends and returns a
ledger entry with `cost_credits = 0` and `overage_credits = 0` and leaves
both wallet balances exactly unchanged: zero-cost usage is recorded, not
skipped. -/
theorem commit_usage_zero_cost (s : Settings) (st : BillingState) (uid : UserId)
    (mn : Option String) (pt ct : Option Int) (tt : Int) (pr : Option String)
    (md : Option (List (String × String)))
    (htt : tt ≤ 0)
    (hm : 0 ≤ (get_wallet st uid).1.monthly_remaining)
    (hp : 0 ≤ (get_wallet st uid).1.prepaid_balance) :
    (commit_usage s st uid mn pt ct tt pr md).1.cost_credits = 0 ∧
    (commit_usage s st uid mn pt ct tt pr md).1.overage_credits = 0 ∧
    (commit_usage s st uid mn pt ct tt pr md).2.ledger =
      (commit_usage s st uid mn pt ct tt pr md).1 :: st.ledger ∧
    monthlyOf (commit_usage s st uid mn pt ct tt pr md).2 uid = monthlyOf st uid ∧
    prepaidOf (commit_usage s st uid mn pt ct tt pr md).2 uid = prepaidOf st uid := by
  have hc : calculate_cost_credits s tt mn = 0 := by
    simp [calculate_cost_credits, htt]
  have hl := commit_wallet_lookup s st uid mn pt ct tt pr md
  rw [hc] at hl
  have hmin1 : min (get_wallet st uid).1.monthly_remaining (0 : Int) = 0 := min_eq_right hm
  rw [hmin1] at hl
  simp only [sub_zero, zero_sub, neg_zero] at hl
  have hmin2 : min (get_wallet st uid).1.prepaid_balance (0 : Int) = 0 := min_eq_right hp
  rw [hmin2] at hl
  simp only [sub_zero] at hl
  refine ⟨?_, ?_, commit_ledger_eq s st uid mn pt ct tt pr md, ?_, ?_⟩
  · rw [commit_entry_eq s st uid mn pt ct tt pr md]
    exact hc
  · rw [commit_entry_eq s st uid mn pt ct tt pr md]
    simp only [hc]
    omega
  · rw [← get_wallet_fst_monthly st uid]
    show monthlyOf (commit_usage s st uid mn pt ct tt pr md).2 uid = _
    unfold monthlyOf
    rw [hl]
  · rw [← get_wallet_fst_prepaid st uid]
    show prepaidOf (commit_usage s st uid mn pt ct tt pr md).2 uid = _
    unfold prepaidOf
    rw [hl]

/-- Witness for C9: with wallet `{7, 3}` and `total_tokens = 0`, a ledger
entry with zero cost and zero overage is appended and the balances stay
`{7, 3}`. -/
theorem commit_usage_zero_cost_witness :
    ((0 : Int) ≤ 7 ∧ (0 : Int) ≤ 3 ∧ (0 : Int) ≤ 0) ∧
    (commit_usage testSettings ⟨[⟨1, 7, 3⟩], [], [], []⟩ 1
      none none none 0 none none).1.cost_credits = 0 ∧
    (commit_usage testSettings ⟨[⟨1, 7, 3⟩], [], [], []⟩ 1
      none none none 0 none none).1.overage_credits = 0 ∧
    (commit_usage testSettings ⟨[⟨1, 7, 3⟩], [], [], []⟩ 1
      none none none 0 none none).2.ledger =
      (commit_usage testSettings ⟨[⟨1, 7, 3⟩], [], [], []⟩ 1
        none none none 0 none none).1 :: [] ∧
    monthlyOf (commit_usage testSettings ⟨[⟨1, 7, 3⟩], [], [], []⟩ 1
      none none none 0 none none).2 1 = monthlyOf ⟨[⟨1, 7, 3⟩], [], [], []⟩ 1 ∧
    prepaidOf (commit_usage testSettings ⟨[⟨1, 7, 3⟩], [], [], []⟩ 1
      none none none 0 none none).2 1 = prepaidOf ⟨[⟨1, 7, 3⟩], [], [], []⟩ 1 := by
  obtain ⟨e1, e2, e3, e4, e5⟩ :=
    commit_usage_zero_cost testSettings ⟨[⟨1, 7, 3⟩], [], [], []⟩ 1
      none none none 0 none none (by decide) (by decide) (by decide)
  exact ⟨⟨by decide, by decide, by decide⟩, e1, e2, e3, e4, e5⟩

/-! ## Claims C2 and C10: transaction idempotency guard -/

theorem apply_pack_noop_of_exists (st : BillingState) (uid : UserId)
    (provider eid : String) (credits : Int) (amount : Option ℚ) (currency : Option String)
    (md : Option (List (String × String)))
    (h : (get_transaction_by_external_id st eid).isSome) :
    apply_pack_purchase st uid provider eid credits amount currency md = st := by
  unfold apply_pack_purchase
  cases hx : get_transaction_by_external_id st eid with
  | some tx => rfl
  | none => rw [hx] at h; simp at h

theorem record_noop_of_exists (s : Settings) (st : BillingState) (uid : UserId)
    (provider eid : String) (amount : Option ℚ) (currency : Option String)
    (md : Option (List (String × String)))
    (h : (get_transaction_by_external_id st eid).isSome) :
    record_subscription_payment s st uid provider eid amount currency md = st := by
  unfold record_subscription_payment
  cases hx : get_transaction_by_external_id st eid with
  | some tx => rfl
  | none => rw [hx] at h; simp at h

theorem update_wallet_transactions (st : BillingState) (w : CreditWallet) :
    (update_wallet st w).transactions = st.transactions := rfl

theorem apply_pack_transactions_of_missing (st : BillingState) (uid : UserId)
    (provider eid : String) (credits : Int) (amount : Option ℚ) (currency : Option String)
    (md : Option (List (String × String)))
    (h : get_transaction_by_external_id st eid = none) :
    (apply_pack_purchase st uid provider eid credits amount currency md).transactions =
      (⟨uid, provider, eid, "credit_pack", "completed", amount, currency, credits, md⟩ :
        PaymentTransaction) :: st.transactions := by
  unfold apply_pack_purchase
  rw [h]
  simp only [create_transaction, update_wallet_transactions]
  rw [(get_wallet_preserves st uid).2.2]

theorem apply_pack_tx_exists (st : BillingState) (uid : UserId)
    (provider eid : String) (credits : Int) (amount : Option ℚ) (currency : Option String)
    (md : Option (List (String × String))) :
    (get_transaction_by_external_id
      (apply_pack_purchase st uid provider eid credits amount currency md) eid).isSome := by
  cases h : get_transaction_by_external_id st eid with
  | some tx =>
    rw [apply_pack_noop_of_exists st uid provider eid credits amount currency md (by rw [h]; rfl)]
    rw [h]; rfl
  | none =>
    unfold get_transaction_by_external_id
    rw [apply_pack_transactions_of_missing st uid provider eid credits amount currency md h]
    rw [List.find?_cons_of_pos _ (by simp)]
    rfl

theorem apply_pack_wallet_lookup_of_missing (st : BillingState) (uid : UserId)
    (provider eid : String) (credits : Int) (amount : Option ℚ) (currency : Option String)
    (md : Option (List (String × String)))
    (h : get_transaction_by_external_id st eid = none) :
    get_wallet_by_user_id (apply_pack_purchase st uid provider eid credits amount currency md)
        uid =
      some { (get_wallet st uid).1 with
        prepaid_balance := (get_wallet st uid).1.prepaid_balance + credits } := by
  unfold apply_pack_purchase
  rw [h]
  simp only [create_transaction]
  exact update_after_get_wallet_lookup st uid _ (get_wallet_user_id st uid)

/-- C2: `apply_pack_purchase` is idempotent on `external_id`: the second
of two identical calls is a no-op (no wallet update and no second
transaction record), and when no transaction with the id existed the
first call adds the credits to `prepaid_balance` and records exactly one
`credit_pack` transaction — so `prepaid_balance` changes exactly once. -/
theorem apply_pack_purchase_idempotent (st : BillingState) (uid : UserId)
    (provider eid : String) (credits : Int) (amount : Option ℚ) (currency : Option String)
    (md : Option (List (String × String))) :
    apply_pack_purchase
        (apply_pack_purchase st uid provider eid credits amount currency md)
        uid provider eid credits amount currency md =
      apply_pack_purchase st uid provider eid credits amount currency md ∧
    (get_transaction_by_external_id st eid = none →
      prepaidOf (apply_pack_purchase st uid provider eid credits amount currency md) uid =
        prepaidOf st uid + credits ∧
      txCount (apply_pack_purchase st uid provider eid credits amount currency md) eid =
        txCount st eid + 1) := by
  constructor
  · exact apply_pack_noop_of_exists _ uid provider eid credits amount currency md
      (apply_pack_tx_exists st uid provider eid credits amount currency md)
  · intro h
    constructor
    · rw [← get_wallet_fst_prepaid st uid]
      show prepaidOf _ uid = _
      unfold prepaidOf
      rw [apply_pack_wallet_lookup_of_missing st uid provider eid credits amount currency md h]
    · unfold txCount
      rw [apply_pack_transactions_of_missing st uid provider eid credits amount currency md h]
      rw [List.filter_cons_of_pos]
      · rfl
      · simp

/-- Witness for C2: on a fresh store, purchasing pack `evt_1` (+2000
credits) twice credits the wallet once and stores one transaction. -/
theorem apply_pack_purchase_idempotent_witness :
    get_transaction_by_external_id ⟨[], [], [], []⟩ "evt_1" = none ∧
    prepaidOf (apply_pack_purchase ⟨[], [], [], []⟩ 1 "creem" "evt_1" 2000
        (some (99/10 : ℚ)) (some "USD") none) 1 =
      prepaidOf ⟨[], [], [], []⟩ 1 + 2000 ∧
    txCount (apply_pack_purchase ⟨[], [], [], []⟩ 1 "creem" "evt_1" 2000
        (some (99/10 : ℚ)) (some "USD") none) "evt_1" =
      txCount ⟨[], [], [], []⟩ "evt_1" + 1 ∧
    apply_pack_purchase
        (apply_pack_purchase ⟨[], [], [], []⟩ 1 "creem" "evt_1" 2000
          (some (99/10 : ℚ)) (some "USD") none)
        1 "creem" "evt_1" 2000 (some (99/10 : ℚ)) (some "USD") none =
      apply_pack_purchase ⟨[], [], [], []⟩ 1 "creem" "evt_1" 2000
        (some (99/10 : ℚ)) (some "USD") none := by
  obtain ⟨h1, h2⟩ :=
    apply_pack_purchase_idempotent ⟨[], [], [], []⟩ 1 "creem" "evt_1" 2000
      (some (99/10 : ℚ)) (some "USD") none
  obtain ⟨h3, h4⟩ := h2 (by decide)
  exact ⟨by decide, h3, h4, h1⟩

/-- C10: the idempotency guard is keyed on `external_id` alone — if any
stored transaction carries that `external_id`, even one for a different
user or of the other kind, both `apply_pack_purchase` and
`record_subscription_payment` are no-ops and grant nothing. -/
theorem dedup_keyed_on_external_id_alone (s : Settings) (st : BillingState) (uid : UserId)
    (provider eid : String) (credits : Int) (amount amount2 : Option ℚ)
    (currency currency2 : Option String) (md md2 : Option (List (String × String)))
    (h : ∃ tx ∈ st.transactions, tx.external_id = eid) :
    apply_pack_purchase st uid provider eid credits amount currency md = st ∧
    record_subscription_payment s st uid provider eid amount2 currency2 md2 = st := by
  have hsome : (get_transaction_by_external_id st eid).isSome := by
    unfold get_transaction_by_external_id
    rw [List.find?_isSome]
    obtain ⟨tx, htx, hext⟩ := h
    exact ⟨tx, htx, by simp [hext]⟩
  exact ⟨apply_pack_noop_of_exists st uid provider eid credits amount currency md hsome,
    record_noop_of_exists s st uid provider eid amount2 currency2 md2 hsome⟩

/-- Witness for C10: a transaction stored for user 2 with kind
`subscription` blocks a pack purchase by user 1 under the same
`external_id`. -/
theorem dedup_keyed_on_external_id_alone_witness :
    (∃ tx ∈ ([⟨2, "creem", "evt_9", "subscription", "completed", none, none, 50, none⟩] :
        List PaymentTransaction), tx.external_id = "evt_9") ∧
    apply_pack_purchase
        ⟨[⟨1, 5, 5⟩], [], [],
          [⟨2, "creem", "evt_9", "subscription", "completed", none, none, 50, none⟩]⟩
        1 "creem" "evt_9" 2000 none none none =
      ⟨[⟨1, 5, 5⟩], [], [],
        [⟨2, "creem", "evt_9", "subscription", "completed", none, none, 50, none⟩]⟩ ∧
    record_subscription_payment testSettings
        ⟨[⟨1, 5, 5⟩], [], [],
          [⟨2, "creem", "evt_9", "subscription", "completed", none, none, 50, none⟩]⟩
        1 "creem" "evt_9" none none none =
      ⟨[⟨1, 5, 5⟩], [], [],
        [⟨2, "creem", "evt_9", "subscription", "completed", none, none, 50, none⟩]⟩ := by
  have hex : ∃ tx ∈ ([⟨2, "creem", "evt_9", "subscription", "completed", none, none, 50, none⟩] :
      List PaymentTransaction), tx.external_id = "evt_9" :=
    ⟨⟨2, "creem", "evt_9", "subscription", "completed", none, none, 50, none⟩,
      List.mem_singleton.mpr rfl, rfl⟩
  obtain ⟨h1, h2⟩ :=
    dedup_keyed_on_external_id_alone testSettings
      ⟨[⟨1, 5, 5⟩], [], [],
        [⟨2, "creem", "evt_9", "subscription", "completed", none, none, 50, none⟩]⟩
      1 "creem" "evt_9" 2000 none none none none none none hex
  exact ⟨hex, h1, h2⟩

/-! ## Claim C6: precheck (corrected — lazy wallet creation is a write) -/

/-- Counterexample to C6 as stated: on a store with no wallet for the
user, `precheck` succeeds but returns a state extended with a freshly
created zero-balance wallet row — `get_wallet`'s lazy creation is a store
write, so precheck is not entirely write-free. -/
theorem precheck_writes_wallet_counterexample :
    precheck testSettings ⟨[], [], [], []⟩ 1 none 0 =
      .ok (0, ⟨[⟨1, 0, 0⟩], [], [], []⟩) ∧
    (⟨[⟨1, 0, 0⟩], [], [], []⟩ : BillingState) ≠ (⟨[], [], [], []⟩ : BillingState) := by
  exact ⟨rfl, by decide⟩

/-- C6 (amended): `precheck` raises `InsufficientCredits` carrying
`required_credits = cost` and `available_credits = monthly + prepaid` iff
`monthly + prepaid < cost`, and otherwise returns the cost; it performs no
deduction and no store write other than lazily creating a zero-balance
wallet when the user has none — when a wallet already exists the store is
completely unchanged in either outcome. -/
theorem precheck_spec (s : Settings) (st : BillingState) (uid : UserId)
    (mn : Option String) (et : Int) :
    ((get_wallet st uid).1.monthly_remaining + (get_wallet st uid).1.prepaid_balance <
        calculate_cost_credits s et mn →
      precheck s st uid mn et =
        .error ⟨calculate_cost_credits s et mn,
          (get_wallet st uid).1.monthly_remaining + (get_wallet st uid).1.prepaid_balance⟩) ∧
    (¬ (get_wallet st uid).1.monthly_remaining + (get_wallet st uid).1.prepaid_balance <
        calculate_cost_credits s et mn →
      precheck s st uid mn et = .ok (calculate_cost_credits s et mn, (get_wallet st uid).2)) ∧
    ((get_wallet_by_user_id st uid).isSome → (get_wallet st uid).2 = st) := by
  refine ⟨?_, ?_, ?_⟩
  · intro h
    unfold precheck
    rw [if_pos h]
  · intro h
    unfold precheck
    rw [if_neg h]
  · intro h
    cases hx : get_wallet_by_user_id st uid with
    | some w => rw [get_wallet_of_found hx]
    | none => rw [hx] at h; simp at h

/-- Witness for C6 (amended) at the spec scenario: wallet `{3, 0}` and
cost 5 raise `InsufficientCredits` with required 5, available 3, leaving
the existing store untouched. -/
theorem precheck_spec_witness :
    (3 : Int) + 0 < calculate_cost_credits testSettings 5000 none ∧
    precheck testSettings ⟨[⟨1, 3, 0⟩], [], [], []⟩ 1 none 5000 =
      .error ⟨calculate_cost_credits testSettings 5000 none, 3 + 0⟩ ∧
    calculate_cost_credits testSettings 5000 none = 5 ∧
    (get_wallet ⟨[⟨1, 3, 0⟩], [], [], []⟩ 1).2 = ⟨[⟨1, 3, 0⟩], [], [], []⟩ := by
  have hc : calculate_cost_credits testSettings 5000 none = 5 := by
    rw [show calculate_cost_credits testSettings 5000 none =
      ⌈(5000 : ℚ) / ((max testSettings.BILLING_TOKENS_PER_CREDIT 1 : ℤ) : ℚ)
        * get_model_multiplier testSettings none⌉ from
      by simp only [calculate_cost_credits]; norm_num]
    rw [show get_model_multiplier testSettings none = 1 from by decide]
    rw [show (max testSettings.BILLING_TOKENS_PER_CREDIT 1 : ℤ) = 1000 from by decide]
    rw [Int.ceil_eq_iff]
    norm_num
  obtain ⟨h1, -, h3⟩ := precheck_spec testSettings ⟨[⟨1, 3, 0⟩], [], [], []⟩ 1 none 5000
  have hlt : (get_wallet ⟨[⟨1, 3, 0⟩], [], [], []⟩ 1).1.monthly_remaining +
      (get_wallet ⟨[⟨1, 3, 0⟩], [], [], []⟩ 1).1.prepaid_balance <
      calculate_cost_credits testSettings 5000 none := by
    rw [hc]; decide
  refine ⟨by rw [hc]; decide, ?_, hc, h3 (by decide)⟩
  have he := h1 hlt
  rw [he]
  rfl

/-! ## Claim C7: unknown event types are ignored without writes -/

/-- C7: for every parsed payload whose event type is not
`checkout.completed`, the dispatch returns `{"status": "ignored"}` and
leaves the store — wallets, ledger, subscriptions and transactions —
completely unchanged. -/
theorem webhook_ignores_unknown_event_type (parseUserId : String → Option UserId)
    (s : Settings) (st : BillingState) (ev : CreemEvent)
    (h : ev.eventType ≠ some "checkout.completed") :
    process_creem_event parseUserId s st ev = (.ignored none, st) := by
  unfold process_creem_event
  rw [if_neg]
  simp [h]

/-- Witness for C7: a `payment.failed` event on a populated store is
ignored with the state returned unchanged. -/
theorem webhook_ignores_unknown_event_type_witness :
    (some "payment.failed" ≠ some "checkout.completed") ∧
    process_creem_event (fun _ => some 1) testSettings ⟨[⟨1, 7, 3⟩], [], [], []⟩
      ⟨some "payment.failed", some "evt_5", ⟨none, none, none, none⟩⟩ =
      (.ignored none, ⟨[⟨1, 7, 3⟩], [], [], []⟩) := by
  exact ⟨by decide,
    webhook_ignores_unknown_event_type (fun _ => some 1) testSettings
      ⟨[⟨1, 7, 3⟩], [], [], []⟩
      ⟨some "payment.failed", some "evt_5", ⟨none, none, none, none⟩⟩ (by decide)⟩

/-! ## Claim C8: exception handling on the webhook path (corrected) -/

/-- Counterexample to C8 as stated: a payload that passes signature
verification but is not valid JSON makes `json.loads` inside
`creem.parse_event` raise, and the handler body has no `try/except`, so
the exception propagates out of the handler instead of being converted to
an ignored/error JSON response. -/
theorem creem_webhook_parse_error_escapes :
    creem_webhook (fun _ => none) testSettings ⟨[], [], [], []⟩ true
      (.error "Expecting value: line 1 column 1 (char 0)") =
      .uncaught "Expecting value: line 1 column 1 (char 0)" := rfl

theorem strValued_map (d : List (String × String)) :
    ∀ p ∈ d.map (fun q => (q.1, Json.str q.2)), ∃ v, p.2 = Json.str v := by
  intro p hp
  rcases List.mem_map.mp hp with ⟨q, -, hq⟩
  exact ⟨q.2, by rw [← hq]⟩

theorem strValued_update (d u : List (String × Json))
    (hd : ∀ p ∈ d, ∃ v, p.2 = Json.str v) (hu : ∀ p ∈ u, ∃ v, p.2 = Json.str v) :
    ∀ p ∈ jsonDictUpdate d u, ∃ v, p.2 = Json.str v := by
  intro p hp
  rcases List.mem_append.mp hp with h | h
  · exact hd p (List.mem_of_mem_filter h)
  · exact hu p h

theorem jsonGetD_strValued (fields : List (String × Json))
    (h : ∀ p ∈ fields, ∃ v, p.2 = Json.str v) (k : String) (d : Json) :
    jsonGetD fields k d = d ∨ ∃ v, jsonGetD fields k d = Json.str v := by
  unfold jsonGetD jsonGet
  cases hf : fields.find? (fun p => p.1 == k) with
  | none => left; rfl
  | some p =>
    right
    rcases h p (List.mem_of_find?_eq_some hf) with ⟨v, hv⟩
    exact ⟨v, by simp [hv]⟩

theorem pyOrJson_strValued (a b : Json)
    (ha : a = Json.null ∨ ∃ v, a = Json.str v)
    (hb : b = Json.null ∨ ∃ v, b = Json.str v) :
    pyOrJson a b = Json.null ∨ ∃ v, pyOrJson a b = Json.str v := by
  unfold pyOrJson
  by_cases ht : jsonTruthy a = true
  · rw [if_pos ht]; exact ha
  · rw [if_neg ht]; exact hb

theorem handler_metadata_encoded (omd : Option (List (String × String)))
    (osub : Option SubscriptionObject) (P O : Json) :
    ∃ mfs, handler_metadata [("metadata", encodeOptDict omd),
        ("subscription", encodeSubscription osub), ("product", P), ("order", O)] =
        .ok mfs ∧
      ∀ p ∈ mfs, ∃ v, p.2 = Json.str v := by
  have hmj : ∃ mfs0, pyOrJson (encodeOptDict omd) (.obj []) = Json.obj mfs0 ∧
      ∀ p ∈ mfs0, ∃ v, p.2 = Json.str v := by
    cases omd with
    | none => exact ⟨[], rfl, by intro p hp; simp at hp⟩
    | some d =>
      cases d with
      | nil => exact ⟨[], rfl, by intro p hp; simp at hp⟩
      | cons x xs =>
        refine ⟨((x :: xs).map (fun p => (p.1, Json.str p.2))), ?_, strValued_map (x :: xs)⟩
        rfl
  obtain ⟨mfs0, hmj, hstr0⟩ := hmj
  unfold handler_metadata
  simp only [show jsonGetD [("metadata", encodeOptDict omd),
      ("subscription", encodeSubscription osub), ("product", P), ("order", O)]
      "metadata" Json.null = encodeOptDict omd from rfl,
    show jsonGetD [("metadata", encodeOptDict omd),
      ("subscription", encodeSubscription osub), ("product", P), ("order", O)]
      "subscription" Json.null = encodeSubscription osub from rfl, hmj]
  cases osub with
  | none => exact ⟨mfs0, rfl, hstr0⟩
  | some sub =>
    simp only [encodeSubscription,
      show jsonGetD [("id", encodeOptStr sub.id), ("metadata", encodeOptDict sub.metadata_)]
        "metadata" Json.null = encodeOptDict sub.metadata_ from rfl]
    cases hsm : sub.metadata_ with
    | none => exact ⟨mfs0, rfl, hstr0⟩
    | some sm =>
      cases sm with
      | nil => exact ⟨mfs0, rfl, hstr0⟩
      | cons y ys =>
        refine ⟨jsonDictUpdate mfs0 ((y :: ys).map (fun p => (p.1, Json.str p.2))), ?_, ?_⟩
        · rfl
        · exact strValued_update _ _ hstr0 (strValued_map (y :: ys))

theorem handler_dispatch_ok (parseUserId : String → Option UserId) (s : Settings)
    (st : BillingState) (eventFields dataFields mfs pfs ofs : List (String × Json))
    (raw : String) :
    ∃ out, handler_dispatch parseUserId s st eventFields dataFields mfs pfs ofs
      (Json.str raw) = .ok out := by
  simp only [handler_dispatch]
  cases hpid : parseUserId raw with
  | none => exact ⟨_, rfl⟩
  | some uid =>
    repeat' first
    | exact ⟨_, rfl⟩
    | split

theorem handler_stage3_encoded_ok (parseUserId : String → Option UserId) (s : Settings)
    (st : BillingState) (eventFields : List (String × Json)) (M SU : Json)
    (oprod : Option ProductObject) (oord : Option OrderObject)
    (mfs : List (String × Json)) (hstr : ∀ p ∈ mfs, ∃ v, p.2 = Json.str v) :
    ∃ out, handler_stage3 parseUserId s st eventFields
      [("metadata", M), ("subscription", SU), ("product", encodeProduct oprod),
        ("order", encodeOrder oord)] mfs = .ok out := by
  have hu := pyOrJson_strValued (jsonGetD mfs "user_id" Json.null)
    (jsonGetD mfs "internal_customer_id" Json.null)
    (jsonGetD_strValued mfs hstr "user_id" Json.null)
    (jsonGetD_strValued mfs hstr "internal_customer_id" Json.null)
  unfold handler_stage3
  by_cases ht : jsonTruthy (pyOrJson (jsonGetD mfs "user_id" Json.null)
      (jsonGetD mfs "internal_customer_id" Json.null)) = true
  · rw [if_neg (not_not_intro ht)]
    rcases hu with hu | ⟨v, hu⟩
    · rw [hu] at ht
      simp [jsonTruthy] at ht
    · rw [hu]
      simp only [show jsonGetD [("metadata", M), ("subscription", SU),
          ("product", encodeProduct oprod), ("order", encodeOrder oord)]
          "product" Json.null = encodeProduct oprod from rfl,
        show jsonGetD [("metadata", M), ("subscription", SU),
          ("product", encodeProduct oprod), ("order", encodeOrder oord)]
          "order" Json.null = encodeOrder oord from rfl]
      cases oprod with
      | none =>
        cases oord with
        | none => exact handler_dispatch_ok parseUserId s st eventFields _ mfs [] [] v
        | some o => exact handler_dispatch_ok parseUserId s st eventFields _ mfs [] _ v
      | some p =>
        cases oord with
        | none => exact handler_dispatch_ok parseUserId s st eventFields _ mfs _ [] v
        | some o => exact handler_dispatch_ok parseUserId s st eventFields _ mfs _ _ v
  · rw [if_pos ht]
    exact ⟨_, rfl⟩

theorem handler_stage2_encoded_ok (parseUserId : String → Option UserId) (s : Settings)
    (st : BillingState) (eventFields : List (String × Json))
    (omd : Option (List (String × String))) (osub : Option SubscriptionObject)
    (oprod : Option ProductObject) (oord : Option OrderObject) :
    ∃ out, handler_stage2 parseUserId s st eventFields
      [("metadata", encodeOptDict omd), ("subscription", encodeSubscription osub),
        ("product", encodeProduct oprod), ("order", encodeOrder oord)] = .ok out := by
  obtain ⟨mfs, hok, hstr⟩ :=
    handler_metadata_encoded omd osub (encodeProduct oprod) (encodeOrder oord)
  unfold handler_stage2
  rw [hok]
  exact handler_stage3_encoded_ok parseUserId s st eventFields
    (encodeOptDict omd) (encodeSubscription osub) oprod oord mfs hstr

theorem creem_webhook_ok_case (parseUserId : String → Option UserId) (s : Settings)
    (st : BillingState) (j : Json) :
    creem_webhook parseUserId s st true (.ok j) =
      match handler_body parseUserId s st j with
      | .ok out => .response out.1 out.2
      | .error e => .uncaught e := by
  rfl

theorem handler_body_encoded_ok (parseUserId : String → Option UserId) (s : Settings)
    (st : BillingState) (ev : CreemEvent) :
    ∃ out, handler_body parseUserId s st (encodeCreemEvent ev) = .ok out := by
  obtain ⟨et, evid, omd, osub, oprod, oord⟩ := ev
  cases et with
  | none => exact ⟨_, rfl⟩
  | some t =>
    by_cases ht : t = "checkout.completed"
    · subst ht
      exact handler_stage2_encoded_ok parseUserId s st _ omd osub oprod oord
    · refine ⟨(.ignored none, st), ?_⟩
      unfold handler_body encodeCreemEvent
      simp only [List.cons_append]
      rw [if_pos]
      rw [show jsonGetD (("eventType", encodeOptStr (some t)) :: _) "eventType" Json.null =
        encodeOptStr (some t) from rfl]
      simp [encodeOptStr, jsonEqStr, ht]

/-- C8 (amended): not every webhook-path exception is caught. A failed
signature check yields an HTTP 400 error and a JSON parse failure
propagates uncaught; moreover, since `parse_event` can return any JSON
value and the body has no `try/except`, valid JSON of an unexpected shape
also escapes: a non-dict payload raises at `event.get`, and a
`checkout.completed` dict whose metadata carries a truthy non-string
`user_id` raises inside `UUID` (an `AttributeError`, not the caught
`ValueError`). Only payloads shaped like provider events are guaranteed a
JSON response. -/
theorem creem_webhook_exception_paths (parseUserId : String → Option UserId) (s : Settings)
    (st : BillingState) :
    (∀ e, creem_webhook parseUserId s st true (.error e) = .uncaught e) ∧
    (∀ parsed, creem_webhook parseUserId s st false parsed =
      .httpError 400 "Invalid signature") ∧
    (∀ j, isObj j = false → creem_webhook parseUserId s st true (.ok j) =
      .uncaught "AttributeError: no attribute get") ∧
    creem_webhook parseUserId s st true (.ok (.obj
        [("eventType", .str "checkout.completed"),
          ("object", .obj [("metadata", .obj [("user_id", .num 123)])])])) =
      .uncaught "AttributeError: no attribute replace" ∧
    (∀ ev : CreemEvent, ∃ r st',
      creem_webhook parseUserId s st true (.ok (encodeCreemEvent ev)) =
        .response r st') := by
  refine ⟨fun e => rfl, fun parsed => rfl, ?_, rfl, ?_⟩
  · intro j hj
    cases j with
    | obj fields => simp [isObj] at hj
    | null => rfl
    | bool b => rfl
    | num q => rfl
    | str v => rfl
    | arr xs => rfl
  · intro ev
    obtain ⟨out, hout⟩ := handler_body_encoded_ok parseUserId s st ev
    refine ⟨out.1, out.2, ?_⟩
    rw [creem_webhook_ok_case, hout]

/-- Witness for C8 (amended): the valid-JSON string payload
`"hello"` (signature assumed valid) is not a dict, so the handler raises
at `event.get` and the exception escapes; a well-shaped credit-pack event
is answered with a response. -/
theorem creem_webhook_exception_paths_witness :
    isObj (.str "hello") = false ∧
    creem_webhook (fun _ => some 7) testSettings ⟨[], [], [], []⟩ true
      (.ok (.str "hello")) = .uncaught "AttributeError: no attribute get" ∧
    (∃ r st', creem_webhook (fun _ => some 7) testSettings ⟨[], [], [], []⟩ true
      (.ok (encodeCreemEvent ⟨some "checkout.completed", some "evt_1",
        ⟨some [("user_id", "u1")], none,
          some ⟨some "prod_pack_2000", some "Pack", some "onetime"⟩,
          some ⟨some "onetime", some 990, some "USD"⟩⟩⟩)) = .response r st') := by
  obtain ⟨-, -, h3, -, h5⟩ :=
    creem_webhook_exception_paths (fun _ => some 7) testSettings ⟨[], [], [], []⟩
  exact ⟨by decide, h3 (.str "hello") (by decide),
    h5 ⟨some "checkout.completed", some "evt_1",
      ⟨some [("user_id", "u1")], none,
        some ⟨some "prod_pack_2000", some "Pack", some "onetime"⟩,
        some ⟨some "onetime", some 990, some "USD"⟩⟩⟩⟩

/-! ## Claim C3: reprocessing a provider event is a no-op -/

theorem record_preserves (s : Settings) (st : BillingState) (uid : UserId)
    (provider eid : String) (amount : Option ℚ) (currency : Option String)
    (md : Option (List (String × String))) :
    (record_subscription_payment s st uid provider eid amount currency md).wallets =
      st.wallets ∧
    (record_subscription_payment s st uid provider eid amount currency md).subscriptions =
      st.subscriptions := by
  unfold record_subscription_payment
  cases get_transaction_by_external_id st eid with
  | some tx => exact ⟨rfl, rfl⟩
  | none => exact ⟨rfl, rfl⟩

theorem record_transactions_of_missing (s : Settings) (st : BillingState) (uid : UserId)
    (provider eid : String) (amount : Option ℚ) (currency : Option String)
    (md : Option (List (String × String)))
    (h : get_transaction_by_external_id st eid = none) :
    (record_subscription_payment s st uid provider eid amount currency md).transactions =
      (⟨uid, provider, eid, "subscription", "completed", amount, currency,
        s.BILLING_MONTHLY_CREDITS, md⟩ : PaymentTransaction) :: st.transactions := by
  unfold record_subscription_payment
  rw [h]
  simp only [create_transaction]

theorem record_tx_exists (s : Settings) (st : BillingState) (uid : UserId)
    (provider eid : String) (amount : Option ℚ) (currency : Option String)
    (md : Option (List (String × String))) :
    (get_transaction_by_external_id
      (record_subscription_payment s st uid provider eid amount currency md) eid).isSome := by
  cases h : get_transaction_by_external_id st eid with
  | some tx =>
    rw [record_noop_of_exists s st uid provider eid amount currency md (by rw [h]; rfl), h]
    rfl
  | none =>
    unfold get_transaction_by_external_id
    rw [record_transactions_of_missing s st uid provider eid amount currency md h]
    rw [List.find?_cons_of_pos _ (by simp)]
    rfl

theorem grant_preserves (s : Settings) (st : BillingState) (uid : UserId)
    (provider : String) (psid : Option String) (status : String) (plan : Option String)
    (cps cpe : Option Int) (md : Option (List (String × String))) :
    (grant_monthly_allowance s st uid provider psid status plan cps cpe md).2.ledger =
      st.ledger ∧
    (grant_monthly_allowance s st uid provider psid status plan cps cpe md).2.transactions =
      st.transactions := by
  unfold grant_monthly_allowance
  constructor
  · rw [(upsert_preserves _ uid provider psid status plan _ cps cpe md).2.1]
    show (update_wallet (get_wallet st uid).2 _).ledger = st.ledger
    unfold update_wallet
    exact (get_wallet_preserves st uid).1
  · rw [(upsert_preserves _ uid provider psid status plan _ cps cpe md).2.2]
    show (update_wallet (get_wallet st uid).2 _).transactions = st.transactions
    unfold update_wallet
    exact (get_wallet_preserves st uid).2.2

theorem grant_wallets_all_eq (s : Settings) (st : BillingState) (uid : UserId)
    (provider : String) (psid : Option String) (status : String) (plan : Option String)
    (cps cpe : Option Int) (md : Option (List (String × String))) :
    ∀ x ∈ (grant_monthly_allowance s st uid provider psid status plan cps cpe md).2.wallets,
      (x.user_id == uid) = true →
      x = { (get_wallet st uid).1 with monthly_remaining := s.BILLING_MONTHLY_CREDITS } := by
  intro x hx hid
  unfold grant_monthly_allowance at hx
  rw [(upsert_preserves _ uid provider psid status plan _ cps cpe md).1] at hx
  have huid : ({ (get_wallet st uid).1 with
      monthly_remaining := s.BILLING_MONTHLY_CREDITS } : CreditWallet).user_id = uid :=
    get_wallet_user_id st uid
  refine update_wallet_all_eq (get_wallet st uid).2 _ x hx ?_
  rw [huid]
  exact hid

theorem upsert_fst (st : BillingState) (uid : UserId) (provider : String)
    (psid : Option String) (status : String) (plan : Option String) (mc : Int)
    (cps cpe : Option Int) (md : Option (List (String × String))) :
    (upsert_subscription st uid provider psid status plan mc cps cpe md).1 =
      ⟨uid, provider, psid, status, plan, mc, cps, cpe, md⟩ := by
  unfold upsert_subscription
  cases get_latest_subscription st uid with
  | some sub => rfl
  | none => rfl

theorem grant_latest (s : Settings) (st : BillingState) (uid : UserId)
    (provider : String) (psid : Option String) (status : String) (plan : Option String)
    (cps cpe : Option Int) (md : Option (List (String × String))) :
    get_latest_subscription
        (grant_monthly_allowance s st uid provider psid status plan cps cpe md).2 uid =
      some ⟨uid, provider, psid, status, plan, s.BILLING_MONTHLY_CREDITS, cps, cpe, md⟩ := by
  unfold grant_monthly_allowance
  have h := upsert_latest
    (update_wallet (get_wallet st uid).2
      { (get_wallet st uid).1 with monthly_remaining := s.BILLING_MONTHLY_CREDITS })
    uid provider psid status plan s.BILLING_MONTHLY_CREDITS cps cpe md
  rw [upsert_fst] at h
  exact h

theorem grant_noop_of_granted (s : Settings) (st : BillingState) (uid : UserId)
    (provider : String) (psid : Option String) (status : String) (plan : Option String)
    (cps cpe : Option Int) (md : Option (List (String × String))) (st' : BillingState)
    (hw : st'.wallets =
      (grant_monthly_allowance s st uid provider psid status plan cps cpe md).2.wallets)
    (hs : st'.subscriptions =
      (grant_monthly_allowance s st uid provider psid status plan cps cpe md).2.subscriptions) :
    (grant_monthly_allowance s st' uid provider psid status plan cps cpe md).2 = st' := by
  have hlook : get_wallet_by_user_id st' uid =
      some { (get_wallet st uid).1 with monthly_remaining := s.BILLING_MONTHLY_CREDITS } := by
    unfold get_wallet_by_user_id
    rw [hw]
    exact grant_wallet_lookup s st uid provider psid status plan cps cpe md
  have hgw := get_wallet_of_found hlook
  have hstep : update_wallet st'
      { (get_wallet st uid).1 with monthly_remaining := s.BILLING_MONTHLY_CREDITS } = st' := by
    refine update_wallet_of_all_eq st' _ ?_
    intro x hx hid
    rw [hw] at hx
    refine grant_wallets_all_eq s st uid provider psid status plan cps cpe md x hx ?_
    rw [show ({ (get_wallet st uid).1 with
        monthly_remaining := s.BILLING_MONTHLY_CREDITS } : CreditWallet).user_id = uid from
      get_wallet_user_id st uid] at hid
    exact hid
  have hlatest : get_latest_subscription st' uid =
      some ⟨uid, provider, psid, status, plan, s.BILLING_MONTHLY_CREDITS, cps, cpe, md⟩ := by
    unfold get_latest_subscription
    rw [hs]
    exact grant_latest s st uid provider psid status plan cps cpe md
  have hfind : st'.subscriptions.find? (fun x => x.user_id == uid) =
      some ⟨uid, provider, psid, status, plan, s.BILLING_MONTHLY_CREDITS, cps, cpe, md⟩ :=
    hlatest
  unfold grant_monthly_allowance
  simp only [hgw]
  rw [hstep]
  unfold upsert_subscription
  rw [hlatest]
  simp only []
  rw [replaceFirst_eq_self st'.subscriptions (fun x => x.user_id == uid) _ hfind]

/-- C3: processing the same provider event a second time through the
webhook dispatch path is a no-op on the second attempt — the state after
reprocessing equals the state after the first processing for every event
(recurring subscription, one-time credit pack, or ignored): the wallet,
ledger, subscription and transaction stores are all left unchanged. -/
theorem webhook_second_delivery_noop (parseUserId : String → Option UserId) (s : Settings)
    (st : BillingState) (ev : CreemEvent) :
    (process_creem_event parseUserId s (process_creem_event parseUserId s st ev).2 ev).2 =
      (process_creem_event parseUserId s st ev).2 := by
  by_cases htype : (ev.eventType == some "checkout.completed") = true
  · by_cases hu : pyTruthy (eventUserRaw ev) = true
    · cases hpid : parseUserId ((eventUserRaw ev).getD "") with
      | none =>
        simp only [process_creem_event, if_pos htype, if_neg (not_not_intro hu), hpid]
      | some user_id =>
        by_cases hb : (eventBillingType ev == some "recurring"
            || eventProductId ev == some s.CREEM_SUBSCRIPTION_PRODUCT_ID) = true
        · simp only [process_creem_event, if_pos htype, if_neg (not_not_intro hu), hpid,
            if_pos hb]
          have hG : (grant_monthly_allowance s
              (record_subscription_payment s
                (grant_monthly_allowance s st user_id "creem"
                  (ev.object.subscription.bind (fun x => x.id)) "active"
                  (ev.object.product.bind (fun p => p.name)) none none
                  (some (eventMetadata ev))).2
                user_id "creem" (ev.id.getD "") (eventAmount ev) (eventCurrency ev)
                (some (eventMetadata ev)))
              user_id "creem" (ev.object.subscription.bind (fun x => x.id)) "active"
              (ev.object.product.bind (fun p => p.name)) none none
              (some (eventMetadata ev))).2 =
              record_subscription_payment s
                (grant_monthly_allowance s st user_id "creem"
                  (ev.object.subscription.bind (fun x => x.id)) "active"
                  (ev.object.product.bind (fun p => p.name)) none none
                  (some (eventMetadata ev))).2
                user_id "creem" (ev.id.getD "") (eventAmount ev) (eventCurrency ev)
                (some (eventMetadata ev)) :=
            grant_noop_of_granted s st user_id "creem"
              (ev.object.subscription.bind (fun x => x.id)) "active"
              (ev.object.product.bind (fun p => p.name)) none none
              (some (eventMetadata ev)) _
              (record_preserves s _ user_id "creem" (ev.id.getD "") (eventAmount ev)
                (eventCurrency ev) (some (eventMetadata ev))).1
              (record_preserves s _ user_id "creem" (ev.id.getD "") (eventAmount ev)
                (eventCurrency ev) (some (eventMetadata ev))).2
          rw [hG]
          exact record_noop_of_exists s _ user_id "creem" (ev.id.getD "") (eventAmount ev)
            (eventCurrency ev) (some (eventMetadata ev))
            (record_tx_exists s _ user_id "creem" (ev.id.getD "") (eventAmount ev)
              (eventCurrency ev) (some (eventMetadata ev)))
        · cases hrc : resolve_pack_credits s (eventProductId ev) with
          | none =>
            simp only [process_creem_event, if_pos htype, if_neg (not_not_intro hu), hpid,
              if_neg hb, hrc]
          | some credits =>
            by_cases hz : credits = 0
            · simp only [process_creem_event, if_pos htype, if_neg (not_not_intro hu), hpid,
                if_neg hb, hrc, if_pos hz]
            · simp only [process_creem_event, if_pos htype, if_neg (not_not_intro hu), hpid,
                if_neg hb, hrc, if_neg hz]
              exact apply_pack_noop_of_exists _ user_id "creem" (ev.id.getD "") credits
                (eventAmount ev) (eventCurrency ev) (some (eventMetadata ev))
                (apply_pack_tx_exists st user_id "creem" (ev.id.getD "") credits
                  (eventAmount ev) (eventCurrency ev) (some (eventMetadata ev)))
    · simp only [process_creem_event, if_pos htype, if_pos hu]
  · simp only [process_creem_event, if_neg htype]
